import Mathlib

/-!
Shallow embedding of `src/app.py` from the paddle-ocr-http repository:
a Flask HTTP service exposing `POST /ocr` (image to recognized text via an
external PaddleOCR engine) and `GET /health`.  External effects (PIL image
decoding, base64 decoding, the OCR engine `predict` call) are modelled as an
environment of opaque functions; JSON responses are modelled by a small JSON
value type; the per-request temporary file is modelled by a boolean recording
whether it still exists on disk after the handler returns.
-/

namespace PaddleOcrHttp

/-- Minimal JSON value model for request/response bodies.  Numbers are
modelled as rationals (exact arithmetic stands in for Python floats). -/
inductive JsonVal : Type where
  | str (s : String)
  | num (q : ℚ)
  | bool (b : Bool)
  | arr (l : List JsonVal)
  | obj (kvs : List (String × JsonVal))

/-- Assoc-list field lookup inside a JSON object (first match wins,
mirroring Python dict key access). -/
def lookupAssoc : List (String × JsonVal) → String → Option JsonVal
  | [], _ => none
  | (k', v) :: rest, k => if k' = k then some v else lookupAssoc rest k

/-- Field lookup on a JSON value: `some` for a present object key. -/
def JsonVal.lookup : JsonVal → String → Option JsonVal
  | .obj kvs, k => lookupAssoc kvs k
  | _, _ => none

/-- Assoc-list update: replace the first binding of `k`, or append a new
binding at the end (Python dict assignment `d[k] = v`). -/
def setAssoc : List (String × JsonVal) → String → JsonVal → List (String × JsonVal)
  | [], k, v => [(k, v)]
  | (k', v') :: rest, k, v =>
      if k' = k then (k, v) :: rest else (k', v') :: setAssoc rest k v

/-- Key assignment on a JSON value (`result['image_info'] = ...`). -/
def JsonVal.set : JsonVal → String → JsonVal → JsonVal
  | .obj kvs, k, v => .obj (setAssoc kvs k v)
  | j, _, _ => j

/-- An HTTP response: status code plus JSON body. -/
structure HttpResponse : Type where
  status : Nat
  body : JsonVal

/-! ## PIL image model

Only what the handler touches: the mode string, the size, and per-pixel
channel data.  Channels are rationals in `[0, 255]`; modes without an alpha
channel carry `a = 255`. -/

/-- One pixel: red, green, blue, alpha channels. -/
structure Pixel : Type where
  r : ℚ
  g : ℚ
  b : ℚ
  a : ℚ
deriving DecidableEq

/-- The PIL image modes the handler distinguishes (`RGBA`/`LA` for the
alpha-flattening branch, `RGB` for the pass-through, the rest for
`convert('RGB')`). -/
inductive ImageMode : Type where
  | RGB
  | RGBA
  | LA
  | L
  | P
  | CMYK
deriving DecidableEq

/-- The mode name as reported in `image_info.mode`. -/
def ImageMode.name : ImageMode → String
  | .RGB => "RGB"
  | .RGBA => "RGBA"
  | .LA => "LA"
  | .L => "L"
  | .P => "P"
  | .CMYK => "CMYK"

/-- A PIL image: mode, width, height, and pixel data as a function of
coordinates. -/
structure PILImage : Type where
  mode : ImageMode
  w : Nat
  h : Nat
  px : Nat → Nat → Pixel

/-- `Image.new('RGB', size, color)`: constant-colored RGB image. -/
def imageNewRGB (w h : Nat) (color : Pixel) : PILImage :=
  ⟨.RGB, w, h, fun _ _ => color⟩

/-- Opaque white, the background color `(255, 255, 255)` used when
flattening alpha. -/
def whitePixel : Pixel := ⟨255, 255, 255, 255⟩

/-- `image.split()[-1]`: the last band, which for `RGBA` and `LA` images is
the alpha channel, used as a paste mask. -/
def alphaChannel (image : PILImage) : Nat → Nat → ℚ :=
  fun x y => (image.px x y).a

/-- Per-channel blend of PIL `paste` with an 8-bit mask `m`:
`out = (bg * (255 - m) + fg * m) / 255`. -/
def blendChannel (bg fg m : ℚ) : ℚ := (bg * (255 - m) + fg * m) / 255

/-- `background.paste(image, mask=mask)`: blends `fg` over `bg` under the
mask; the result keeps the background's mode. -/
def pasteWithMask (bg fg : PILImage) (mask : Nat → Nat → ℚ) : PILImage :=
  { bg with
    px := fun x y =>
      ⟨blendChannel (bg.px x y).r (fg.px x y).r (mask x y),
       blendChannel (bg.px x y).g (fg.px x y).g (mask x y),
       blendChannel (bg.px x y).b (fg.px x y).b (mask x y),
       255⟩ }

/-- `image.convert('RGB')` on a non-alpha mode: re-tags the mode (channel
re-encoding of the external library is not further interpreted). -/
def convertRGB (image : PILImage) : PILImage :=
  { image with mode := .RGB }

/-- The mode-normalization block of `extract_text` (src/app.py lines
179-188): `RGBA`/`LA` images are pasted onto a white background using their
alpha channel as mask; any other non-`RGB` mode is converted to `RGB`. -/
def normalize_to_rgb (image : PILImage) : PILImage :=
  if image.mode = .RGBA ∨ image.mode = .LA then
    let background := imageNewRGB image.w image.h whitePixel
    let background :=
      if image.mode = .RGBA then
        pasteWithMask background image (alphaChannel image)
      else
        pasteWithMask background image (alphaChannel image)
    background
  else if image.mode ≠ .RGB then
    convertRGB image
  else
    image

/-! ## Python string primitives

Executable models of the Python `str` methods the handler uses
(`str.lower`, `str.endswith`, `str.strip`), defined over the character
list of the string. -/

/-- Python `s.lower()`. -/
def lowerStr (s : String) : String := ⟨s.data.map Char.toLower⟩

/-- Python `s.endswith(suffix)`. -/
def endsWithStr (s suffix : String) : Bool := suffix.data.isSuffixOf s.data

/-- Python `s.strip()`: drop leading and trailing whitespace. -/
def stripChars (s : String) : String :=
  ⟨((s.data.dropWhile Char.isWhitespace).reverse.dropWhile Char.isWhitespace).reverse⟩

/-! ## OCR engine result model -/

/-- One `text_info` entry of a PaddleOCR 3.2 page result, with the defaults
the code applies on access (`.get('text', '')`, `.get('score', 0.0)`,
`.get('bbox', [])`) already folded in. -/
structure TextInfo : Type where
  text : String
  score : ℚ
  bbox : List ℚ
deriving DecidableEq

/-- One per-page result object `res`; `texts = none` models an object
without a `texts` attribute (`hasattr(res, 'texts')` false). -/
structure PageResult : Type where
  texts : Option (List TextInfo)
deriving DecidableEq

/-- The environment of external calls the handler makes, each an opaque
function: PIL `Image.open` over a byte stream, `base64.b64decode`, and the
composition of saving the image as JPEG with `ocr.predict` on that file.
`Except.error` carries the message of a raised exception. -/
structure Env : Type where
  imageOpen : List Nat → Except String PILImage
  b64decode : String → Except String (List Nat)
  predictImg : PILImage → Except String (List PageResult)

/-! ## process_image (src/app.py lines 38-102) -/

/-- The JSON object for one entry of the `details` list. -/
def detailObj (text : String) (confidence : ℚ) (bbox : List ℚ) : JsonVal :=
  .obj [("text", .str text), ("confidence", .num confidence),
        ("bbox", .arr (bbox.map .num))]

/-- One iteration of the inner `for text_info in res.texts` loop: append to
the `texts`, `confidences`, `details` accumulators only when the stripped
text is non-empty. -/
def addInfo (acc : List String × List ℚ × List JsonVal) (text_info : TextInfo) :
    List String × List ℚ × List JsonVal :=
  let text := text_info.text
  let confidence := text_info.score
  let bbox := text_info.bbox
  if stripChars text ≠ "" then
    (acc.1 ++ [text], acc.2.1 ++ [confidence],
     acc.2.2 ++ [detailObj text confidence bbox])
  else
    acc

/-- One iteration of the outer `for res in result` loop: the inner loop
runs only when `res` has a truthy (non-empty) `texts` attribute. -/
def addPage (acc : List String × List ℚ × List JsonVal) (res : PageResult) :
    List String × List ℚ × List JsonVal :=
  match res.texts with
  | some infos => if infos.isEmpty then acc else infos.foldl addInfo acc
  | none => acc

/-- The accumulation loop of `process_image`, producing the three parallel
lists `texts`, `confidences`, `details`. -/
def collect (result : List PageResult) : List String × List ℚ × List JsonVal :=
  result.foldl addPage ([], [], [])

/-- `process_image(image_data)`.  Returns the response dict together with a
boolean recording whether the per-request temporary file (created with
`delete=False`) still exists on disk when the function returns: `os.unlink`
runs only after `ocr.predict` returns normally, so an engine exception
leaves the file in place. -/
def process_image (env : Env) (image_data : PILImage) : JsonVal × Bool :=
  match env.predictImg image_data with
  | .error e =>
      (.obj [("success", .bool false), ("error", .str e)], true)
  | .ok result =>
      if result.isEmpty then
        (.obj [("success", .bool true), ("text", .str ""),
               ("confidence", .num 0), ("details", .arr [])], false)
      else
        let acc := collect result
        let full_text := String.intercalate " " acc.1
        let avg_confidence : ℚ :=
          if acc.2.1.isEmpty then 0 else acc.2.1.sum / (acc.2.1.length : ℚ)
        (.obj [("success", .bool true), ("text", .str full_text),
               ("confidence", .num avg_confidence),
               ("details", .arr acc.2.2)], false)

/-! ## extract_text (src/app.py lines 115-213) -/

/-- The shapes of request body the `/ocr` handler distinguishes:
a multipart file field `image`, a JSON body with an `image` key, a JSON
body without one, or neither. -/
inductive RequestBody : Type where
  | multipart (filename : String) (stream : List Nat)
  | jsonWithImage (b64 : String)
  | jsonOther
  | noImage

/-- A `{success: false, error: msg}` JSON body. -/
def jsonError (msg : String) : JsonVal :=
  .obj [("success", .bool false), ("error", .str msg)]

/-- The filename allow-list check
`file.filename.lower().endswith(('.png', '.jpg', '.jpeg', '.bmp', '.tiff', '.webp'))`. -/
def allowed_extension (filename : String) : Bool :=
  let l := lowerStr filename
  endsWithStr l ".png" || endsWithStr l ".jpg" || endsWithStr l ".jpeg" ||
    endsWithStr l ".bmp" || endsWithStr l ".tiff" || endsWithStr l ".webp"

/-- The `image_info` metadata object appended to the OCR result. -/
def imageInfoObj (image : PILImage) : JsonVal :=
  .obj [("width", .num (image.w : ℚ)), ("height", .num (image.h : ℚ)),
        ("mode", .str image.mode.name)]

/-- The shared tail of `extract_text` once an image is decoded: normalize
the mode, run `process_image`, attach `image_info`, respond 200. -/
def runOcr (env : Env) (image0 : PILImage) : HttpResponse × Bool :=
  let image := normalize_to_rgb image0
  let res := process_image env image
  (⟨200, res.1.set "image_info" (imageInfoObj image)⟩, res.2)

/-- `extract_text()`, the `POST /ocr` handler.  The boolean is the
temporary-file flag of `process_image` (`false` when no temporary file was
ever created for the request). -/
def extract_text (env : Env) (req : RequestBody) : HttpResponse × Bool :=
  match req with
  | .multipart filename stream =>
      if filename = "" then
        (⟨400, jsonError "No file selected"⟩, false)
      else if ¬ allowed_extension filename then
        (⟨400, jsonError "Unsupported file type. Use PNG, JPG, JPEG, BMP, TIFF, or WEBP"⟩,
         false)
      else
        match env.imageOpen stream with
        | .error e => (⟨400, jsonError ("Invalid image file: " ++ e)⟩, false)
        | .ok image => runOcr env image
  | .jsonWithImage b64 =>
      match env.b64decode b64 with
      | .error e =>
          (⟨400, jsonError ("Invalid base64 image data: " ++ e)⟩, false)
      | .ok image_data =>
          match env.imageOpen image_data with
          | .error e =>
              (⟨400, jsonError ("Invalid base64 image data: " ++ e)⟩, false)
          | .ok image => runOcr env image
  | .jsonOther =>
      (⟨400, jsonError "Missing image data in JSON request"⟩, false)
  | .noImage =>
      (⟨400, jsonError "No image provided. Send as file upload or base64 JSON."⟩, false)

/-! ## health_check, too_large, request dispatch -/

/-- `health_check()`, the `GET /health` handler: a constant 200 response. -/
def health_check : HttpResponse :=
  ⟨200, .obj [("status", .str "healthy"), ("service", .str "paddle-ocr-api"),
              ("version", .str "1.0.0"), ("paddleocr_version", .str "3.2"),
              ("gpu_enabled", .bool false)]⟩

/-- `app.config['MAX_CONTENT_LENGTH'] = 5 * 1024 * 1024`. -/
def MAX_CONTENT_LENGTH : Nat := 5 * 1024 * 1024

/-- The registered 413 error handler `too_large`. -/
def too_large : HttpResponse :=
  ⟨413, jsonError "File too large. Maximum size is 5MB."⟩

/-- Request dispatch for `POST /ocr` including the web framework layer:
Flask rejects any request whose payload length exceeds
`MAX_CONTENT_LENGTH` with a 413 handled by `too_large`, before the handler
runs; otherwise `extract_text` handles the request. -/
def handle_ocr (env : Env) (contentLength : Nat) (req : RequestBody) :
    HttpResponse × Bool :=
  if MAX_CONTENT_LENGTH < contentLength then
    (too_large, false)
  else
    extract_text env req

/-! ## Specification-side descriptions and sample values -/

/-- Specification-side description of the entries the loop keeps from one
list of `text_info` entries: those whose stripped text is non-empty. -/
def keptOf (infos : List TextInfo) : List TextInfo :=
  infos.filter (fun ti => stripChars ti.text ≠ "")

/-- The kept entries of one page result. -/
def pageKept (res : PageResult) : List TextInfo :=
  match res.texts with
  | some infos => keptOf infos
  | none => []

/-- Specification-side description of all recognized items the handler
keeps, across pages, in order. -/
def keptItems (result : List PageResult) : List TextInfo :=
  (result.map pageKept).flatten

/-- A request reaches OCR processing with decoded image `image` when the
handler's result on `req` is exactly the OCR tail run on `image` (both
ingress paths funnel into this tail). -/
def reachesOcrWith (env : Env) (req : RequestBody) (image : PILImage) : Prop :=
  extract_text env req = runOcr env image

/-- A concrete recognized item used by witnesses. -/
def sampleInfo : TextInfo := ⟨"ABC 123", 1, [1, 2, 3, 4]⟩

/-- A concrete one-page engine result used by witnesses. -/
def samplePages : List PageResult := [⟨some [sampleInfo]⟩]

/-- A concrete RGB image used by witnesses. -/
def sampleImageRGB : PILImage := ⟨.RGB, 2, 1, fun _ _ => ⟨1, 2, 3, 255⟩⟩

/-- A concrete RGBA image used by witnesses. -/
def sampleImageRGBA : PILImage := ⟨.RGBA, 1, 1, fun _ _ => ⟨10, 20, 30, 255⟩⟩

/-- A concrete environment whose engine succeeds with the given pages. -/
def envOf (pages : List PageResult) : Env :=
  ⟨fun _ => .ok sampleImageRGB, fun _ => .ok [], fun _ => .ok pages⟩

/-- A concrete environment whose engine `predict` call raises with the
given message. -/
def envRaise (msg : String) : Env :=
  ⟨fun _ => .ok sampleImageRGB, fun _ => .ok [], fun _ => .error msg⟩

/-! ## Loop characterization lemmas -/

/-- The inner loop appends exactly the kept entries' texts, scores and
detail objects, in order. -/
theorem foldl_addInfo_eq (infos : List TextInfo)
    (acc : List String × List ℚ × List JsonVal) :
    infos.foldl addInfo acc =
      (acc.1 ++ (keptOf infos).map TextInfo.text,
       acc.2.1 ++ (keptOf infos).map TextInfo.score,
       acc.2.2 ++ (keptOf infos).map fun ti => detailObj ti.text ti.score ti.bbox) := by
  induction infos generalizing acc with
  | nil => simp [keptOf]
  | cons ti rest ih =>
      by_cases h : stripChars ti.text = ""
      · simp [addInfo, h, ih, keptOf, List.filter_cons]
      · simp [addInfo, h, ih, keptOf, List.filter_cons]

/-- The outer loop appends exactly the kept items of all pages, in order. -/
theorem foldl_addPage_eq (result : List PageResult)
    (acc : List String × List ℚ × List JsonVal) :
    result.foldl addPage acc =
      (acc.1 ++ (keptItems result).map TextInfo.text,
       acc.2.1 ++ (keptItems result).map TextInfo.score,
       acc.2.2 ++ (keptItems result).map fun ti => detailObj ti.text ti.score ti.bbox) := by
  induction result generalizing acc with
  | nil => simp [keptItems]
  | cons res rest ih =>
      have hk : keptItems (res :: rest) = pageKept res ++ keptItems rest := by
        simp [keptItems]
      rw [List.foldl_cons, ih, hk]
      cases hts : res.texts with
      | none => simp [addPage, hts, pageKept]
      | some infos =>
          by_cases he : infos.isEmpty = true
          · have h0 : infos = [] := by simpa using he
            subst h0
            simp [addPage, hts, pageKept, keptOf]
          · simp [addPage, hts, he, foldl_addInfo_eq, pageKept, List.append_assoc]

/-- The three accumulated lists are the text, score and detail-object
projections of the kept items. -/
theorem collect_eq (result : List PageResult) :
    collect result =
      ((keptItems result).map TextInfo.text,
       (keptItems result).map TextInfo.score,
       (keptItems result).map fun ti => detailObj ti.text ti.score ti.bbox) := by
  simp [collect, foldl_addPage_eq]

/-- On a normal engine return, `process_image` produces the success body
determined by the kept items, and the temporary file is gone. -/
theorem process_image_ok (env : Env) (image : PILImage)
    (pages : List PageResult) (hp : env.predictImg image = .ok pages) :
    process_image env image =
      (.obj [("success", .bool true),
             ("text", .str (String.intercalate " " ((keptItems pages).map TextInfo.text))),
             ("confidence", .num (if keptItems pages = [] then 0
                else ((keptItems pages).map TextInfo.score).sum
                      / ((keptItems pages).length : ℚ))),
             ("details", .arr ((keptItems pages).map
                fun ti => detailObj ti.text ti.score ti.bbox))],
       false) := by
  unfold process_image
  rw [hp]
  cases pages with
  | nil =>
      simp [keptItems]
      rfl
  | cons p ps =>
      simp only [List.isEmpty_cons, collect_eq]
      by_cases hk : keptItems (p :: ps) = []
      · simp [hk]
      · simp [hk, List.length_map]

/-- On an engine exception, `process_image` produces the error body and
the temporary file is still on disk. -/
theorem process_image_err (env : Env) (image : PILImage) (msg : String)
    (hp : env.predictImg image = .error msg) :
    process_image env image =
      (.obj [("success", .bool false), ("error", .str msg)], true) := by
  unfold process_image
  rw [hp]

/-- Every entry kept from one `text_info` list has non-empty stripped
text. -/
theorem mem_keptOf {ti : TextInfo} {infos : List TextInfo}
    (h : ti ∈ keptOf infos) : stripChars ti.text ≠ "" := by
  simp only [keptOf, List.mem_filter, decide_eq_true_eq] at h
  exact h.2

/-- Every kept item has non-empty stripped text. -/
theorem mem_keptItems {ti : TextInfo} {pages : List PageResult}
    (h : ti ∈ keptItems pages) : stripChars ti.text ≠ "" := by
  simp only [keptItems, List.mem_flatten, List.mem_map] at h
  obtain ⟨l, ⟨res, _, rfl⟩, hm⟩ := h
  unfold pageKept at hm
  cases hres : res.texts with
  | none => rw [hres] at hm; simp at hm
  | some infos => rw [hres] at hm; exact mem_keptOf hm

/-- A multipart request with a non-empty, disallowed filename is rejected
with the fixed 400 body before anything else happens. -/
theorem extract_text_bad_ext (env : Env) (filename : String)
    (stream : List Nat) (hf : filename ≠ "")
    (h : allowed_extension filename = false) :
    extract_text env (.multipart filename stream) =
      (⟨400, jsonError "Unsupported file type. Use PNG, JPG, JPEG, BMP, TIFF, or WEBP"⟩,
       false) := by
  have hb : ¬ (allowed_extension filename = true) := by simp [h]
  simp only [extract_text]
  rw [if_neg hf, if_pos hb]

/-- C9: every `GET /health` request returns HTTP 200 with a fixed-shape
JSON body containing the keys `status`, `service`, `version` and
`gpu_enabled`; the handler is a constant, so the response is independent
of any request content or server state. -/
theorem health_check_fixed_shape :
    health_check.status = 200 ∧
    health_check.body.lookup "status" = some (.str "healthy") ∧
    health_check.body.lookup "service" = some (.str "paddle-ocr-api") ∧
    health_check.body.lookup "version" = some (.str "1.0.0") ∧
    health_check.body.lookup "gpu_enabled" = some (.bool false) :=
  ⟨rfl, rfl, rfl, rfl, rfl⟩

/-- C1: the claim fails on the code.  `process_image` creates its
temporary file with `delete=False` and calls `os.unlink` only after
`ocr.predict` returns; when `predict` raises, the unlink is skipped, the
exception handler returns the error response, and the temporary file is
still on disk after the response (first conjunct: the temp-file flag is
`true`).  The request did reach OCR processing and was answered (the
remaining conjuncts). -/
theorem temp_file_persists_after_predict_exception :
    (extract_text (envRaise "boom") (.multipart "plate.jpg" [0])).2 = true ∧
    (extract_text (envRaise "boom") (.multipart "plate.jpg" [0])).1.status = 200 ∧
    (extract_text (envRaise "boom") (.multipart "plate.jpg" [0])).1.body.lookup "success"
      = some (.bool false) :=
  ⟨rfl, rfl, rfl⟩

/-- C2: for every successful OCR invocation, the `text` field is the
space-joined concatenation of the recognized (kept) item texts and the
`confidence` field is the arithmetic mean of their confidence scores,
`0` when there are no items. -/
theorem ocr_text_join_confidence_mean (env : Env) (image : PILImage)
    (pages : List PageResult) (hp : env.predictImg image = .ok pages) :
    (process_image env image).1.lookup "text"
        = some (.str (String.intercalate " " ((keptItems pages).map TextInfo.text))) ∧
    (process_image env image).1.lookup "confidence"
        = some (.num (if keptItems pages = [] then 0
            else ((keptItems pages).map TextInfo.score).sum
                  / ((keptItems pages).length : ℚ))) := by
  rw [process_image_ok env image pages hp]
  exact ⟨rfl, rfl⟩

/-- Witness for C2 at a concrete one-item engine result. -/
theorem ocr_text_join_confidence_mean_witness :
    (envOf samplePages).predictImg sampleImageRGB = .ok samplePages ∧
    ((process_image (envOf samplePages) sampleImageRGB).1.lookup "text"
        = some (.str (String.intercalate " "
            ((keptItems samplePages).map TextInfo.text))) ∧
     (process_image (envOf samplePages) sampleImageRGB).1.lookup "confidence"
        = some (.num (if keptItems samplePages = [] then 0
            else ((keptItems samplePages).map TextInfo.score).sum
                  / ((keptItems samplePages).length : ℚ)))) :=
  ⟨rfl, ocr_text_join_confidence_mean _ _ _ rfl⟩

/-- C10: whitespace-only items are excluded from the joined text, the
details list and the confidence mean; the accumulated `texts`,
`confidences`, `details` lists have equal length, the `text` field is the
space-join of exactly the details entries' texts in order, and the
`confidence` field is the mean over exactly the details entries'
confidences. -/
theorem details_parallel_invariants (env : Env) (image : PILImage)
    (pages : List PageResult) (hp : env.predictImg image = .ok pages) :
    (collect pages).1.length = (collect pages).2.1.length ∧
    (collect pages).2.1.length = (collect pages).2.2.length ∧
    (∀ ti ∈ keptItems pages, stripChars ti.text ≠ "") ∧
    (process_image env image).1.lookup "details"
        = some (.arr ((keptItems pages).map
            fun ti => detailObj ti.text ti.score ti.bbox)) ∧
    (process_image env image).1.lookup "text"
        = some (.str (String.intercalate " "
            ((keptItems pages).map TextInfo.text))) ∧
    (process_image env image).1.lookup "confidence"
        = some (.num (if keptItems pages = [] then 0
            else ((keptItems pages).map TextInfo.score).sum
                  / ((keptItems pages).length : ℚ))) := by
  rw [process_image_ok env image pages hp, collect_eq]
  refine ⟨by simp, by simp, fun ti hti => mem_keptItems hti, ?_, rfl, rfl⟩
  cases pages with
  | nil => rfl
  | cons p ps => rfl

/-- Witness for C10 at a concrete one-item engine result. -/
theorem details_parallel_invariants_witness :
    (envOf samplePages).predictImg sampleImageRGB = .ok samplePages ∧
    ((collect samplePages).1.length = (collect samplePages).2.1.length ∧
     (collect samplePages).2.1.length = (collect samplePages).2.2.length ∧
     (∀ ti ∈ keptItems samplePages, stripChars ti.text ≠ "") ∧
     (process_image (envOf samplePages) sampleImageRGB).1.lookup "details"
        = some (.arr ((keptItems samplePages).map
            fun ti => detailObj ti.text ti.score ti.bbox)) ∧
     (process_image (envOf samplePages) sampleImageRGB).1.lookup "text"
        = some (.str (String.intercalate " "
            ((keptItems samplePages).map TextInfo.text))) ∧
     (process_image (envOf samplePages) sampleImageRGB).1.lookup "confidence"
        = some (.num (if keptItems samplePages = [] then 0
            else ((keptItems samplePages).map TextInfo.score).sum
                  / ((keptItems samplePages).length : ℚ)))) :=
  ⟨rfl, details_parallel_invariants _ _ _ rfl⟩

/-- C3: for every valid image on which the engine detects no text (empty
or text-free result), the `/ocr` response has `text = ""`,
`confidence = 0`, and an empty `details` list. -/
theorem no_text_empty_response (env : Env) (req : RequestBody)
    (image : PILImage) (pages : List PageResult)
    (hreach : reachesOcrWith env req image)
    (hp : env.predictImg (normalize_to_rgb image) = .ok pages)
    (hkept : keptItems pages = []) :
    (extract_text env req).1.status = 200 ∧
    (extract_text env req).1.body.lookup "text" = some (.str "") ∧
    (extract_text env req).1.body.lookup "confidence" = some (.num 0) ∧
    (extract_text env req).1.body.lookup "details" = some (.arr []) := by
  rw [reachesOcrWith] at hreach
  rw [hreach]
  simp only [runOcr]
  rw [process_image_ok _ _ _ hp, hkept]
  exact ⟨trivial, rfl, rfl, rfl⟩

/-- Witness for C3: an engine returning no pages through the multipart
ingress. -/
theorem no_text_empty_response_witness :
    reachesOcrWith (envOf []) (.multipart "plate.jpg" [0]) sampleImageRGB ∧
    (envOf []).predictImg (normalize_to_rgb sampleImageRGB) = .ok [] ∧
    keptItems ([] : List PageResult) = [] ∧
    ((extract_text (envOf []) (.multipart "plate.jpg" [0])).1.status = 200 ∧
     (extract_text (envOf []) (.multipart "plate.jpg" [0])).1.body.lookup "text"
        = some (.str "") ∧
     (extract_text (envOf []) (.multipart "plate.jpg" [0])).1.body.lookup "confidence"
        = some (.num 0) ∧
     (extract_text (envOf []) (.multipart "plate.jpg" [0])).1.body.lookup "details"
        = some (.arr [])) :=
  ⟨rfl, rfl, rfl, no_text_empty_response _ _ _ _ rfl rfl rfl⟩

/-- C4: when the engine's `predict` call raises, the exception is caught
(the handler still returns an HTTP response, status 200 in this
implementation) and the response body carries `success: false` and the
exception message under `error`; the failure is reported synchronously in
the same response. -/
theorem engine_exception_caught (env : Env) (req : RequestBody)
    (image : PILImage) (msg : String)
    (hreach : reachesOcrWith env req image)
    (hp : env.predictImg (normalize_to_rgb image) = .error msg) :
    (extract_text env req).1.status = 200 ∧
    (extract_text env req).1.body.lookup "success" = some (.bool false) ∧
    (extract_text env req).1.body.lookup "error" = some (.str msg) := by
  rw [reachesOcrWith] at hreach
  rw [hreach]
  simp only [runOcr]
  rw [process_image_err _ _ _ hp]
  exact ⟨trivial, rfl, rfl⟩

/-- Witness for C4: an engine raising `"boom"` through the multipart
ingress. -/
theorem engine_exception_caught_witness :
    reachesOcrWith (envRaise "boom") (.multipart "b.png" [0]) sampleImageRGB ∧
    (envRaise "boom").predictImg (normalize_to_rgb sampleImageRGB) = .error "boom" ∧
    ((extract_text (envRaise "boom") (.multipart "b.png" [0])).1.status = 200 ∧
     (extract_text (envRaise "boom") (.multipart "b.png" [0])).1.body.lookup "success"
        = some (.bool false) ∧
     (extract_text (envRaise "boom") (.multipart "b.png" [0])).1.body.lookup "error"
        = some (.str "boom")) :=
  ⟨rfl, rfl, engine_exception_caught _ _ _ _ rfl rfl⟩

/-- C5: a multipart upload whose filename extension is not in the
allow-list is answered with HTTP 400 and `success: false`; no temporary
file is created and the result does not depend on the environment of
external calls, so the OCR engine is never invoked. -/
theorem disallowed_extension_rejected (env : Env) (filename : String)
    (stream : List Nat) (h : allowed_extension filename = false) :
    (extract_text env (.multipart filename stream)).1.status = 400 ∧
    (extract_text env (.multipart filename stream)).1.body.lookup "success"
        = some (.bool false) ∧
    (extract_text env (.multipart filename stream)).2 = false ∧
    (∀ env' : Env, extract_text env' (.multipart filename stream)
        = extract_text env (.multipart filename stream)) := by
  by_cases hf : filename = ""
  · subst hf
    exact ⟨rfl, rfl, rfl, fun _ => rfl⟩
  · rw [extract_text_bad_ext env filename stream hf h]
    exact ⟨rfl, rfl, rfl,
      fun env' => extract_text_bad_ext env' filename stream hf h⟩

/-- Witness for C5 at a concrete disallowed filename. -/
theorem disallowed_extension_rejected_witness :
    allowed_extension "malware.exe" = false ∧
    ((extract_text (envOf samplePages) (.multipart "malware.exe" [0])).1.status = 400 ∧
     (extract_text (envOf samplePages) (.multipart "malware.exe" [0])).1.body.lookup "success"
        = some (.bool false) ∧
     (extract_text (envOf samplePages) (.multipart "malware.exe" [0])).2 = false ∧
     (∀ env' : Env, extract_text env' (.multipart "malware.exe" [0])
        = extract_text (envOf samplePages) (.multipart "malware.exe" [0]))) :=
  ⟨by decide, disallowed_extension_rejected _ _ _ (by decide)⟩

/-- C6: a payload exceeding the configured ceiling is answered with HTTP
413 and `success: false` by the registered `too_large` handler, and the
ceiling of this implementation is 5MB. -/
theorem oversized_payload_returns_413 (env : Env) (contentLength : Nat)
    (req : RequestBody) (h : MAX_CONTENT_LENGTH < contentLength) :
    handle_ocr env contentLength req = (too_large, false) ∧
    (handle_ocr env contentLength req).1.status = 413 ∧
    (handle_ocr env contentLength req).1.body.lookup "success"
        = some (.bool false) ∧
    MAX_CONTENT_LENGTH = 5 * 1024 * 1024 := by
  have he : handle_ocr env contentLength req = (too_large, false) := by
    unfold handle_ocr
    rw [if_pos h]
  refine ⟨he, ?_, ?_, rfl⟩
  · rw [he]
    rfl
  · rw [he]
    rfl


/-- Witness for C6 at a payload one byte over the ceiling. -/
theorem oversized_payload_returns_413_witness :
    MAX_CONTENT_LENGTH < 5 * 1024 * 1024 + 1 ∧
    (handle_ocr (envOf samplePages) (5 * 1024 * 1024 + 1) .noImage
        = (too_large, false) ∧
     (handle_ocr (envOf samplePages) (5 * 1024 * 1024 + 1) .noImage).1.status = 413 ∧
     (handle_ocr (envOf samplePages) (5 * 1024 * 1024 + 1) .noImage).1.body.lookup "success"
        = some (.bool false) ∧
     MAX_CONTENT_LENGTH = 5 * 1024 * 1024) :=
  ⟨by decide, oversized_payload_returns_413 _ _ _ (by decide)⟩

/-- C7: the same image bytes submitted as a multipart upload (under an
allowed filename) and as base64 JSON produce the same `text` and
`details` in the response: both ingress paths decode the same bytes with
the same `Image.open` and feed the same downstream pipeline. -/
theorem multipart_base64_equivalent (env : Env) (filename : String)
    (s : String) (bytes : List Nat)
    (hext : allowed_extension filename = true)
    (hdec : env.b64decode s = .ok bytes) :
    (extract_text env (.multipart filename bytes)).1.body.lookup "text"
        = (extract_text env (.jsonWithImage s)).1.body.lookup "text" ∧
    (extract_text env (.multipart filename bytes)).1.body.lookup "details"
        = (extract_text env (.jsonWithImage s)).1.body.lookup "details" := by
  have hf : filename ≠ "" := fun h0 => absurd (h0 ▸ hext) (by decide)
  have hb : ¬ ¬ (allowed_extension filename = true) := fun hc => hc hext
  simp only [extract_text]
  rw [if_neg hf, if_neg hb]
  simp only [hdec]
  cases ho : env.imageOpen bytes with
  | error e => exact ⟨rfl, rfl⟩
  | ok image => exact ⟨rfl, rfl⟩

/-- Witness for C7 at concrete bytes and a concrete base64 payload. -/
theorem multipart_base64_equivalent_witness :
    allowed_extension "plate.jpg" = true ∧
    (envOf samplePages).b64decode "abc" = .ok [] ∧
    ((extract_text (envOf samplePages) (.multipart "plate.jpg" [])).1.body.lookup "text"
        = (extract_text (envOf samplePages) (.jsonWithImage "abc")).1.body.lookup "text" ∧
     (extract_text (envOf samplePages) (.multipart "plate.jpg" [])).1.body.lookup "details"
        = (extract_text (envOf samplePages) (.jsonWithImage "abc")).1.body.lookup "details") :=
  ⟨by decide, rfl, multipart_base64_equivalent _ _ _ _ (by decide) rfl⟩

/-- C8: the image handed to the OCR step is always `RGB`: `RGBA` and `LA`
images are composited onto a white `(255, 255, 255)` background using
their alpha channel as mask (per-pixel blend against white), and every
other non-`RGB` mode is converted to `RGB`. -/
theorem normalize_mode_rgb (image : PILImage) :
    (normalize_to_rgb image).mode = .RGB ∧
    ((image.mode = .RGBA ∨ image.mode = .LA) → ∀ x y,
      (normalize_to_rgb image).px x y =
        ⟨blendChannel 255 (image.px x y).r ((image.px x y).a),
         blendChannel 255 (image.px x y).g ((image.px x y).a),
         blendChannel 255 (image.px x y).b ((image.px x y).a), 255⟩) ∧
    (image.mode ≠ .RGBA → image.mode ≠ .LA → image.mode ≠ .RGB →
      normalize_to_rgb image = convertRGB image) := by
  by_cases hα : image.mode = .RGBA ∨ image.mode = .LA
  · have hn : normalize_to_rgb image =
        pasteWithMask (imageNewRGB image.w image.h whitePixel) image
          (alphaChannel image) := by
      simp only [normalize_to_rgb, if_pos hα, ite_self]
    rw [hn]
    refine ⟨rfl, fun _ x y => rfl, fun h1 h2 _ => ?_⟩
    rcases hα with h | h
    exacts [absurd h h1, absurd h h2]
  · by_cases hrgb : image.mode = .RGB
    · have hn : normalize_to_rgb image = image := by
        simp only [normalize_to_rgb, if_neg hα,
          if_neg (show ¬(image.mode ≠ .RGB) from fun hc => hc hrgb)]
      rw [hn]
      exact ⟨hrgb, fun hc => absurd hc hα, fun _ _ h3 => absurd hrgb h3⟩
    · have hn : normalize_to_rgb image = convertRGB image := by
        simp only [normalize_to_rgb, if_neg hα, if_pos hrgb]
      rw [hn]
      exact ⟨rfl, fun hc => absurd hc hα, fun _ _ _ => rfl⟩

/-- Witness for C8 at a concrete fully-opaque RGBA image. -/
theorem normalize_mode_rgb_witness :
    (sampleImageRGBA.mode = .RGBA ∨ sampleImageRGBA.mode = .LA) ∧
    (normalize_to_rgb sampleImageRGBA).mode = .RGB ∧
    (normalize_to_rgb sampleImageRGBA).px 0 0 =
      ⟨blendChannel 255 (sampleImageRGBA.px 0 0).r ((sampleImageRGBA.px 0 0).a),
       blendChannel 255 (sampleImageRGBA.px 0 0).g ((sampleImageRGBA.px 0 0).a),
       blendChannel 255 (sampleImageRGBA.px 0 0).b ((sampleImageRGBA.px 0 0).a),
       255⟩ :=
  ⟨Or.inl rfl, (normalize_mode_rgb sampleImageRGBA).1,
   (normalize_mode_rgb sampleImageRGBA).2.1 (Or.inl rfl) 0 0⟩

end PaddleOcrHttp
